import Mathlib

/-
  Verification of the document-resolution engine of an automated
  literature-search tool (src/downloader.py).

  The downloader is embedded shallowly: the HTTP transport is a pure
  function from a request URL to an optional response (`none` models a
  transport-level exception raised by `requests`), HTML/XML parsing by
  BeautifulSoup is abstracted into oracles extracting the anchor hrefs
  (in document order) and the `ArticleId` elements of a document, and
  the Unpaywall API is a separate oracle keyed by DOI.  Every function
  mirrors one Python function of `PaperDownloader`; functions that in
  Python can let an exception escape are modelled in `Except Unit`,
  and every function additionally returns the ordered list of URLs it
  issued GET requests for (its request log), which instruments the
  network behaviour without changing it.

  String operations are implemented over `List Char` so that every
  definition evaluates by kernel reduction on concrete inputs.
-/

/-- Whether the first list is a prefix of the second (Boolean). -/
def leadsWith : List Char → List Char → Bool
  | [], _ => true
  | _ :: _, [] => false
  | p :: ps, c :: cs => p == c && leadsWith ps cs

/-- Whether `pat` occurs as a contiguous sublist of `s`. -/
def listContains : List Char → List Char → Bool
  | [], pat => pat.isEmpty
  | c :: rest, pat => leadsWith pat (c :: rest) || listContains rest pat

/-- Split at the first occurrence of `pat`: the part before it and the
part after it, or `none` when `pat` does not occur. -/
def splitFirstL (s pat : List Char) : Option (List Char × List Char) :=
  match s with
  | [] => if pat.isEmpty then some ([], []) else none
  | c :: rest =>
    if leadsWith pat (c :: rest) then some ([], (c :: rest).drop pat.length)
    else
      match splitFirstL rest pat with
      | some (pre, post) => some (c :: pre, post)
      | none => none

/-- Python's `pat in s` substring test. -/
def strContains (s pat : String) : Bool := listContains s.toList pat.toList

/-- Python's `s.lower()`. -/
def lowerStr (s : String) : String := String.mk (s.toList.map Char.toLower)

/-- Python's `s.endswith(pat)`. -/
def strEndsWith (s pat : String) : Bool := leadsWith pat.toList.reverse s.toList.reverse

/-- Python's `s.startswith(pat)`. -/
def strStartsWith (s pat : String) : Bool := leadsWith pat.toList s.toList

/-- Python's `s.strip()`: drop whitespace at both ends. -/
def strTrim (s : String) : String :=
  String.mk (((s.toList.dropWhile Char.isWhitespace).reverse.dropWhile Char.isWhitespace).reverse)

/-- Python's `s.rstrip("/")`. -/
def rstripSlash (s : String) : String :=
  String.mk ((s.toList.reverse.dropWhile (fun c => c == '/')).reverse)

/-- Python's `s.split(m)[0]` for a one-character separator: the part
of `s` before the first occurrence of `m`. -/
def beforeMark (m : Char) (s : String) : String :=
  String.mk (s.toList.takeWhile (fun c => !(c == m)))

/-- The part of a character list after its last occurrence of `m`. -/
def afterLastMark (m : Char) (l : List Char) : List Char :=
  (l.reverse.takeWhile (fun c => !(c == m))).reverse

/-- Python truthiness of a string: non-empty. -/
def strTruthy (s : String) : Bool := !s.toList.isEmpty

/-- Python truthiness of an optional string: present and non-empty. -/
def otruthy : Option String → Bool
  | none => false
  | some s => strTruthy s

/-- Model of one HTTP response as seen by the downloader: status code,
Content-Type header, final URL after redirect following (`r.url`) and
the text body (`r.text`). -/
structure Response where
  status : Nat
  contentType : String
  finalUrl : String
  body : String
  deriving DecidableEq, Repr

/-- `DownloadResult` from src/downloader.py (the spec's
ResolutionResult): success flag, `source_url`, and the three optional
fields `local_path`, `fallback_url`, `reason`, all defaulting to
`None`. -/
structure DownloadResult where
  success : Bool
  source_url : String
  local_path : Option String := none
  fallback_url : Option String := none
  reason : Option String := none
  deriving DecidableEq, Repr

/-- One open-access location of an Unpaywall reply (the fields the code
reads: `host_type`, `url_for_pdf`, `url`). -/
structure OaLoc where
  host_type : String
  url_for_pdf : Option String
  url : Option String
  deriving DecidableEq, Repr

/-- The JSON payload of an Unpaywall reply as read by the code:
`oa_locations` in order, and `best_oa_location`. -/
structure UpJson where
  oa_locations : List OaLoc
  best_oa_location : Option OaLoc
  deriving DecidableEq, Repr

/-- Behaviour of the Unpaywall API on one DOI: the GET raised a
transport exception, returned a non-200 status, or returned data. -/
inductive UpReply where
  | raised
  | httpError (status : Nat)
  | ok (data : UpJson)

/-- The environment of one `PaperDownloader` instance: the HTTP
transport (`none` = the GET raised a transport-level exception), the
two BeautifulSoup extraction oracles (anchor hrefs of an HTML page in
document order; `ArticleId` elements of a PubMed XML page as
`(IdType, text)` pairs in document order), the Unpaywall API keyed by
DOI, and the output directory. -/
structure Env where
  transport : String → Option Response
  anchorsOf : String → List String
  articleIdsOf : String → List (String × String)
  unpaywall : String → UpReply
  out_dir : String

/-- The request log: URLs GETed, in order. -/
abbrev Log := List String

/-- The components of `urllib.parse.urlparse` the code reads (scheme,
netloc, path), for the URL shapes the downloader handles. -/
structure UrlParts where
  scheme : String
  netloc : String
  path : String
  deriving DecidableEq, Repr

/-- Model of `urllib.parse.urlparse`: strip the fragment, split the
scheme at the first `://`, take the netloc up to the first `/` or `?`,
and the path up to the query.  A string without `://` (such as a bare
DOI) has empty scheme and netloc and is all path. -/
def urlparse (url : String) : UrlParts :=
  let noFrag := url.toList.takeWhile (fun c => !(c == '#'))
  match splitFirstL noFrag "://".toList with
  | none =>
    { scheme := "", netloc := "",
      path := String.mk (noFrag.takeWhile (fun c => !(c == '?'))) }
  | some (scheme, rest) =>
    let netloc := rest.takeWhile (fun c => !(c == '/' || c == '?'))
    let after := rest.drop netloc.length
    { scheme := String.mk scheme, netloc := String.mk netloc,
      path := String.mk (after.takeWhile (fun c => !(c == '?'))) }

/-- `os.path.basename`: the part of a path after its last `/`. -/
def basename (p : String) : String :=
  String.mk (afterLastMark '/' p.toList)

/-- `PaperDownloader.safe_filename`: basename of the URL path, with
".pdf" appended when the lowercased name does not already end in it;
`return name or "paper.pdf"` keeps `name` whenever it is truthy. -/
def safeFilename (url : String) : String :=
  let name := basename (urlparse url).path
  let name := if strEndsWith (lowerStr name) ".pdf" then name else name ++ ".pdf"
  if strTruthy name then name else "paper.pdf"

/-- `os.path.join` for the shapes used here (relative second part). -/
def joinPath (a b : String) : String :=
  if strTruthy a then a ++ "/" ++ b else b

/-- `PaperDownloader.save_pdf`: streams the body to disk and returns
the output path; only the returned path is modelled. -/
def savePdf (e : Env) (source_url : String) : String :=
  joinPath e.out_dir (safeFilename source_url)

/-- `PaperDownloader.try_direct_pdf`: GET the URL, catching any
exception as `None`; return the response iff "application/pdf" occurs
in the lowercased Content-Type header (the status code is never
inspected). -/
def tryDirectPdf (e : Env) (url : String) : Option Response × Log :=
  (match e.transport url with
   | none => none
   | some r =>
     if strContains (lowerStr r.contentType) "application/pdf" then some r else none,
   [url])

/-- `PaperDownloader.try_suffix_pdf`: for each suffix in order, build
`base.rstrip("/") + suffix` and stop at the first direct PDF, returning
the response and the URL that produced it. -/
def trySuffixPdf (e : Env) (base : String) : List String → Option (Response × String) × Log
  | [] => (none, [])
  | s :: rest =>
    match tryDirectPdf e (rstripSlash base ++ s) with
    | (some r, l) => (some (r, rstripSlash base ++ s), l)
    | (none, l) =>
      match trySuffixPdf e base rest with
      | (res, l2) => (res, l ++ l2)

/-- The E-utilities efetch URL built by `get_pubmed_xml`: the PMID is
the last path component of the PubMed URL after `rstrip("/")`. -/
def pubmedApiUrl (pubmed_url : String) : String :=
  "https://eutils.ncbi.nlm.nih.gov/entrez/eutils/efetch.fcgi?db=pubmed&id="
    ++ String.mk (afterLastMark '/' (rstripSlash pubmed_url).toList) ++ "&retmode=xml"

/-- `PaperDownloader.get_pubmed_xml`: GET the efetch endpoint with no
try/except, so a transport failure raises; on 200 return the text,
else `None`. -/
def getPubmedXml (e : Env) (pubmed_url : String) : Except Unit (Option String) × Log :=
  match e.transport (pubmedApiUrl pubmed_url) with
  | none => (Except.error (), [pubmedApiUrl pubmed_url])
  | some r =>
    (Except.ok (if r.status = 200 then some r.body else none), [pubmedApiUrl pubmed_url])

/-- First `ArticleId` element with the given `IdType`, as found by
BeautifulSoup; its text. -/
def findArticleId (e : Env) (xml : String) (idtype : String) : Option String :=
  ((e.articleIdsOf xml).find? (fun p => p.1 == idtype)).map (fun p => p.2)

/-- `PaperDownloader.get_doi_from_pubmed`: fetch the XML (which may
raise), return `None` when it is missing or empty, else the text of
the first `ArticleId` with `IdType` "doi". -/
def getDoiFromPubmed (e : Env) (url : String) : Except Unit (Option String) × Log :=
  match getPubmedXml e url with
  | (Except.error u, l) => (Except.error u, l)
  | (Except.ok none, l) => (Except.ok none, l)
  | (Except.ok (some xml), l) =>
    if strTruthy xml then (Except.ok (findArticleId e xml "doi"), l)
    else (Except.ok none, l)

/-- `PaperDownloader.get_pmcid_from_pubmed`: as `get_doi_from_pubmed`
with `IdType` "pmc". -/
def getPmcidFromPubmed (e : Env) (url : String) : Except Unit (Option String) × Log :=
  match getPubmedXml e url with
  | (Except.error u, l) => (Except.error u, l)
  | (Except.ok none, l) => (Except.ok none, l)
  | (Except.ok (some xml), l) =>
    if strTruthy xml then (Except.ok (findArticleId e xml "pmc"), l)
    else (Except.ok none, l)

/-- `PaperDownloader.unpaywall_lookup`: query the Unpaywall API for a
DOI (the GET has no try/except, so a transport failure raises; non-200
yields `None`); then the preference order of the code: first
publisher-hosted location with a truthy `url_for_pdf`, else first
publisher-hosted location with a truthy `url`, else the best location's
`url_for_pdf` or `url`. -/
def unpaywallLookup (e : Env) (doi : String) : Except Unit (Option String) :=
  match e.unpaywall doi with
  | UpReply.raised => Except.error ()
  | UpReply.httpError _ => Except.ok none
  | UpReply.ok data =>
    match data.oa_locations.find? (fun loc => loc.host_type == "publisher" && otruthy loc.url_for_pdf) with
    | some loc => Except.ok loc.url_for_pdf
    | none =>
      match data.oa_locations.find? (fun loc => loc.host_type == "publisher" && otruthy loc.url) with
      | some loc => Except.ok loc.url
      | none =>
        match data.best_oa_location with
        | some best => Except.ok (if otruthy best.url_for_pdf then best.url_for_pdf else best.url)
        | none => Except.ok none

/-- `PaperDownloader.is_doi_url`. -/
def isDoiUrl (url : String) : Bool :=
  strContains url "doi.org/" || strStartsWith url "10."

/-- `PaperDownloader.resolve_doi`: GET `https://doi.org/{doi}` catching
exceptions; on 200 return (final URL, text), else the `None` pair. -/
def resolveDoi (e : Env) (doi : String) : (Option String × Option String) × Log :=
  (match e.transport ("https://doi.org/" ++ doi) with
   | none => (none, none)
   | some r => if r.status = 200 then (some r.finalUrl, some r.body) else (none, none),
   ["https://doi.org/" ++ doi])

/-- The scan of `extract_pdf_from_html` over the anchor hrefs: the
first stripped href containing ".pdf" (case-insensitively), rewritten
against the base URL's scheme and host when root-relative. -/
def firstPdfHref (base_url : String) : List String → Option String
  | [] => none
  | a :: rest =>
    if strContains (lowerStr (strTrim a)) ".pdf" then
      some (if strStartsWith (strTrim a) "/" then
              (urlparse base_url).scheme ++ "://" ++ (urlparse base_url).netloc ++ strTrim a
            else strTrim a)
    else firstPdfHref base_url rest

/-- `PaperDownloader.extract_pdf_from_html`: scan the document's
anchors in order. -/
def extractPdfFromHtml (e : Env) (html : String) (base_url : String) : Option String :=
  firstPdfHref base_url (e.anchorsOf html)

/-- `PaperDownloader.try_pmc_pdf`: direct-PDF attempt on the PMC PDF
path of a PMCID. -/
def tryPmcPdf (e : Env) (pmcid : String) : (Option Response × String) × Log :=
  match tryDirectPdf e ("https://www.ncbi.nlm.nih.gov/pmc/articles/" ++ pmcid ++ "/pdf/") with
  | (pdf, l) => ((pdf, "https://www.ncbi.nlm.nih.gov/pmc/articles/" ++ pmcid ++ "/pdf/"), l)

/-- The part of `handle_pubmed` from the line `doi =
self.get_doi_from_pubmed(url)` on (the code falls through to it when
the PMC attempt did not succeed); `lacc` is the request log already
accumulated.  Without a DOI fail with reason "No PMC and no DOI";
else resolve the DOI and either download an extracted PDF link or
fail with the landing page (or the DOI URL) as fallback. -/
def handlePubmedDoi (e : Env) (url : String) (lacc : Log) : Except Unit DownloadResult × Log :=
  match getDoiFromPubmed e url with
  | (Except.error u, l3) => (Except.error u, lacc ++ l3)
  | (Except.ok doi?, l3) =>
    if otruthy doi? then
      match resolveDoi e (doi?.getD "") with
      | ((landing?, html?), l4) =>
        if otruthy landing? && otruthy html? then
          match extractPdfFromHtml e (html?.getD "") (landing?.getD "") with
          | some pdf_url =>
            match tryDirectPdf e pdf_url with
            | (some _, l5) =>
              (Except.ok { success := true, source_url := url,
                           local_path := some (savePdf e pdf_url) },
               lacc ++ l3 ++ l4 ++ l5)
            | (none, l5) =>
              (Except.ok { success := false, source_url := url,
                           fallback_url := landing?,
                           reason := some "Publisher page (manual download)" },
               lacc ++ l3 ++ l4 ++ l5)
          | none =>
            (Except.ok { success := false, source_url := url,
                         fallback_url := landing?,
                         reason := some "Publisher page (manual download)" },
             lacc ++ l3 ++ l4)
        else
          (Except.ok { success := false, source_url := url,
                       fallback_url := some ("https://doi.org/" ++ doi?.getD ""),
                       reason := some "Could not resolve publisher page" },
           lacc ++ l3 ++ l4)
    else
      (Except.ok { success := false, source_url := url,
                   reason := some "No PMC and no DOI" }, lacc ++ l3)

/-- `PaperDownloader.handle_pubmed`: try PMC first (deriving the PMCID
fetches the PubMed XML, whose GET may raise); on PMC success done,
else fall through to the DOI part. -/
def handlePubmed (e : Env) (url : String) : Except Unit DownloadResult × Log :=
  match getPmcidFromPubmed e url with
  | (Except.error u, l) => (Except.error u, l)
  | (Except.ok pmcid?, l1) =>
    if otruthy pmcid? then
      match tryPmcPdf e (pmcid?.getD "") with
      | ((some _, pdf_url), lp) =>
        (Except.ok { success := true, source_url := url,
                     local_path := some (savePdf e pdf_url) }, l1 ++ lp)
      | ((none, _), lp) => handlePubmedDoi e url (l1 ++ lp)
    else handlePubmedDoi e url l1

/-- The arXiv identifier pattern of `handle_arxiv`:
`[0-9]+\.[0-9]+` parsed at the start of a character list (greedy digit
runs, as the regex matches them). -/
def matchArxivIdAt (cs : List Char) : Option (List Char) :=
  let d1 := cs.takeWhile (fun c => c.isDigit)
  if d1.isEmpty then none
  else
    match cs.drop d1.length with
    | '.' :: rest =>
      let d2 := rest.takeWhile (fun c => c.isDigit)
      if d2.isEmpty then none else some (d1 ++ '.' :: d2)
    | _ => none

/-- The literal `arxiv.org/abs/` of the `handle_arxiv` regex. -/
def arxivAbsPat : List Char := "arxiv.org/abs/".toList

/-- The literal `arxiv.org/pdf/` of the `handle_arxiv` regex. -/
def arxivPdfPat : List Char := "arxiv.org/pdf/".toList

/-- `re.search(r"arxiv\.org/(abs|pdf)/([0-9]+\.[0-9]+)", url)`:
scan for the leftmost position where the pattern matches and return
group 2 (the numeric identifier). -/
def arxivSearch : List Char → Option (List Char)
  | [] => none
  | c :: rest =>
    if leadsWith arxivAbsPat (c :: rest) then
      match matchArxivIdAt ((c :: rest).drop 14) with
      | some id => some id
      | none => arxivSearch rest
    else if leadsWith arxivPdfPat (c :: rest) then
      match matchArxivIdAt ((c :: rest).drop 14) with
      | some id => some id
      | none => arxivSearch rest
    else arxivSearch rest

/-- `PaperDownloader.handle_arxiv`: fail with reason (and no fetch) if
the pattern does not match; else a single direct attempt on the
canonical PDF URL, with no fallback URL on failure. -/
def handleArxiv (e : Env) (url : String) : Except Unit DownloadResult × Log :=
  match arxivSearch url.toList with
  | none => (Except.ok { success := false, source_url := url, reason := some "Invalid arXiv URL" }, [])
  | some idL =>
    match tryDirectPdf e ("https://arxiv.org/pdf/" ++ String.mk idL ++ ".pdf") with
    | (some _, l) =>
      (Except.ok { success := true, source_url := url,
                   local_path := some (savePdf e ("https://arxiv.org/pdf/" ++ String.mk idL ++ ".pdf")) }, l)
    | (none, l) =>
      (Except.ok { success := false, source_url := url, reason := some "arXiv PDF failed" }, l)

/-- `PaperDownloader.handle_generic`: one direct-PDF attempt on the
URL verbatim. -/
def handleGeneric (e : Env) (url : String) : Except Unit DownloadResult × Log :=
  match tryDirectPdf e url with
  | (some _, l) =>
    (Except.ok { success := true, source_url := url, local_path := some (savePdf e url) }, l)
  | (none, l) =>
    (Except.ok { success := false, source_url := url, reason := some "No direct PDF" }, l)

/-- `PaperDownloader.handle_biorxiv`: reassign `url` to its part
before any query string, then probe the suffix variants `.full.pdf`
and `/full.pdf` in order; the reassigned URL is what reaches the
result's `source_url`. -/
def handleBiorxiv (e : Env) (url : String) : Except Unit DownloadResult × Log :=
  match trySuffixPdf e (beforeMark '?' url) [".full.pdf", "/full.pdf"] with
  | (some (_, pdf_url), l) =>
    (Except.ok { success := true, source_url := beforeMark '?' url,
                 local_path := some (savePdf e pdf_url) }, l)
  | (none, l) =>
    (Except.ok { success := false, source_url := beforeMark '?' url,
                 reason := some "bioRxiv PDF not found" }, l)

/-- `PaperDownloader.handle_nature`: GET the landing page with no
try/except (a transport failure raises); non-200 fails with a reason
only; else extract a PDF link and attempt it, failing with the
original URL as fallback. -/
def handleNature (e : Env) (url : String) : Except Unit DownloadResult × Log :=
  match e.transport url with
  | none => (Except.error (), [url])
  | some r =>
    if r.status ≠ 200 then
      (Except.ok { success := false, source_url := url, reason := some "Nature page unreachable" }, [url])
    else
      match extractPdfFromHtml e r.body r.finalUrl with
      | some pdf_url =>
        match tryDirectPdf e pdf_url with
        | (some _, l) =>
          (Except.ok { success := true, source_url := url,
                       local_path := some (savePdf e pdf_url) }, url :: l)
        | (none, l) =>
          (Except.ok { success := false, source_url := url, fallback_url := some url,
                       reason := some "Nature PDF not found" }, url :: l)
      | none =>
        (Except.ok { success := false, source_url := url, fallback_url := some url,
                     reason := some "Nature PDF not found" }, [url])

/-- `PaperDownloader.handle_science`: same shape as the Nature
handler with its own strings. -/
def handleScience (e : Env) (url : String) : Except Unit DownloadResult × Log :=
  match e.transport url with
  | none => (Except.error (), [url])
  | some r =>
    if r.status ≠ 200 then
      (Except.ok { success := false, source_url := url, reason := some "Science page unreachable" }, [url])
    else
      match extractPdfFromHtml e r.body r.finalUrl with
      | some pdf_url =>
        match tryDirectPdf e pdf_url with
        | (some _, l) =>
          (Except.ok { success := true, source_url := url,
                       local_path := some (savePdf e pdf_url) }, url :: l)
        | (none, l) =>
          (Except.ok { success := false, source_url := url, fallback_url := some url,
                       reason := some "Science PDF not found" }, url :: l)
      | none =>
        (Except.ok { success := false, source_url := url, fallback_url := some url,
                     reason := some "Science PDF not found" }, [url])

/-- `PaperDownloader.handle_cell`: same shape as the Nature handler
with its own strings. -/
def handleCell (e : Env) (url : String) : Except Unit DownloadResult × Log :=
  match e.transport url with
  | none => (Except.error (), [url])
  | some r =>
    if r.status ≠ 200 then
      (Except.ok { success := false, source_url := url, reason := some "Cell page unreachable" }, [url])
    else
      match extractPdfFromHtml e r.body r.finalUrl with
      | some pdf_url =>
        match tryDirectPdf e pdf_url with
        | (some _, l) =>
          (Except.ok { success := true, source_url := url,
                       local_path := some (savePdf e pdf_url) }, url :: l)
        | (none, l) =>
          (Except.ok { success := false, source_url := url, fallback_url := some url,
                       reason := some "Cell PDF not found" }, url :: l)
      | none =>
        (Except.ok { success := false, source_url := url, fallback_url := some url,
                     reason := some "Cell PDF not found" }, [url])

/-- `PaperDownloader.handle_frontiers`: first the suffix variant
`/pdf`; else GET the original URL with no try/except (a transport
failure raises) and extract+attempt a PDF link on 200; else fail with
the original URL as fallback. -/
def handleFrontiers (e : Env) (url : String) : Except Unit DownloadResult × Log :=
  match trySuffixPdf e url ["/pdf"] with
  | (some (_, pdf_url), l) =>
    (Except.ok { success := true, source_url := url,
                 local_path := some (savePdf e pdf_url) }, l)
  | (none, l1) =>
    match e.transport url with
    | none => (Except.error (), l1 ++ [url])
    | some r =>
      if r.status = 200 then
        match extractPdfFromHtml e r.body r.finalUrl with
        | some pdf_url =>
          match tryDirectPdf e pdf_url with
          | (some _, l2) =>
            (Except.ok { success := true, source_url := url,
                         local_path := some (savePdf e pdf_url) }, l1 ++ url :: l2)
          | (none, l2) =>
            (Except.ok { success := false, source_url := url, fallback_url := some url,
                         reason := some "Frontiers PDF not found" }, l1 ++ url :: l2)
        | none =>
          (Except.ok { success := false, source_url := url, fallback_url := some url,
                       reason := some "Frontiers PDF not found" }, l1 ++ [url])
      else
        (Except.ok { success := false, source_url := url, fallback_url := some url,
                     reason := some "Frontiers PDF not found" }, l1 ++ [url])

/-- The eight strategy methods `get_handler` can return, as a tag. -/
inductive Handler where
  | pubmed | arxiv | biorxiv | nature | science | cell | frontiers | generic
  deriving DecidableEq, Repr

/-- The Router's classifier modelled from the spec's words (section
4.6): "Classification is by substring match against the resolved host,
checked in this fixed precedence order: PubMed, arXiv,
bioRxiv-or-medRxiv, Nature, Science-or-Sciencemag, Cell, Frontiers,
else Generic."  Stated separately from `getHandler` so the code's
dispatch can be proved to refine it. -/
def routeByHost (domain : String) : Handler :=
  if strContains domain "pubmed.ncbi.nlm.nih.gov" then Handler.pubmed
  else if strContains domain "arxiv.org" then Handler.arxiv
  else if strContains domain "biorxiv.org" || strContains domain "medrxiv.org" then Handler.biorxiv
  else if strContains domain "nature.com" then Handler.nature
  else if strContains domain "science.org" || strContains domain "sciencemag.org" then Handler.science
  else if strContains domain "cell.com" then Handler.cell
  else if strContains domain "frontiersin.org" then Handler.frontiers
  else Handler.generic

/-- `PaperDownloader.get_handler`: for a DOI-shaped reference, GET it
(catching exceptions) and adopt the final URL when the status is 200;
classify the lowercased netloc of the resolved URL through the
substring chain of the source and return the handler with the
resolved URL. -/
def getHandler (e : Env) (url : String) : (Handler × String) × Log :=
  match
    (if isDoiUrl url then
      match e.transport url with
      | none => (url, [url])
      | some r => (if r.status = 200 then r.finalUrl else url, [url])
    else (url, ([] : Log))) with
  | (resolved_url, l) =>
    if strContains (lowerStr (urlparse resolved_url).netloc) "pubmed.ncbi.nlm.nih.gov" then
      ((Handler.pubmed, resolved_url), l)
    else if strContains (lowerStr (urlparse resolved_url).netloc) "arxiv.org" then
      ((Handler.arxiv, resolved_url), l)
    else if strContains (lowerStr (urlparse resolved_url).netloc) "biorxiv.org"
        || strContains (lowerStr (urlparse resolved_url).netloc) "medrxiv.org" then
      ((Handler.biorxiv, resolved_url), l)
    else if strContains (lowerStr (urlparse resolved_url).netloc) "nature.com" then
      ((Handler.nature, resolved_url), l)
    else if strContains (lowerStr (urlparse resolved_url).netloc) "science.org"
        || strContains (lowerStr (urlparse resolved_url).netloc) "sciencemag.org" then
      ((Handler.science, resolved_url), l)
    else if strContains (lowerStr (urlparse resolved_url).netloc) "cell.com" then
      ((Handler.cell, resolved_url), l)
    else if strContains (lowerStr (urlparse resolved_url).netloc) "frontiersin.org" then
      ((Handler.frontiers, resolved_url), l)
    else ((Handler.generic, resolved_url), l)

/-- Dispatch of the handler returned by `get_handler`. -/
def runHandler (e : Env) : Handler → String → Except Unit DownloadResult × Log
  | Handler.pubmed => handlePubmed e
  | Handler.arxiv => handleArxiv e
  | Handler.biorxiv => handleBiorxiv e
  | Handler.nature => handleNature e
  | Handler.science => handleScience e
  | Handler.cell => handleCell e
  | Handler.frontiers => handleFrontiers e
  | Handler.generic => handleGeneric e

/-- One iteration of the `download` loop: route the reference and
invoke the selected strategy on the resolved URL. -/
def resolveOne (e : Env) (url : String) : Except Unit DownloadResult × Log :=
  match getHandler e url with
  | ((h, resolved_url), l1) =>
    match runHandler e h resolved_url with
    | (res, l2) => (res, l1 ++ l2)

/-- `PaperDownloader.download`: process the references in input order,
appending one result per reference; an exception escaping a handler
propagates out of the loop and aborts the whole batch. -/
def download (e : Env) : List String → Except Unit (List DownloadResult) × Log
  | [] => (Except.ok [], [])
  | url :: rest =>
    match resolveOne e url with
    | (Except.error u, l) => (Except.error u, l)
    | (Except.ok res, l) =>
      match download e rest with
      | (Except.error u, l2) => (Except.error u, l ++ l2)
      | (Except.ok results, l2) => (Except.ok (res :: results), l ++ l2)

/-- Whether one reference resolves without an escaping exception. -/
def stepOk (e : Env) (u : String) : Bool :=
  match (resolveOne e u).1 with
  | Except.ok _ => true
  | Except.error _ => false

/-- The result of one reference's resolution when no exception
escapes (with a placeholder failure otherwise). -/
def resolveOneOk (e : Env) (u : String) : DownloadResult :=
  match (resolveOne e u).1 with
  | Except.ok r => r
  | Except.error _ => { success := false, source_url := u }

/-- Appending "/" and more keeps a string non-empty. -/
lemma strTruthy_slash (a b : String) : strTruthy (a ++ "/" ++ b) = true := by
  show (!(a ++ "/" ++ b).data.isEmpty) = true
  rw [String.data_append, String.data_append]
  cases a.data <;> simp [List.isEmpty]

/-- `safe_filename` never returns an empty name. -/
lemma strTruthy_safeFilename (url : String) : strTruthy (safeFilename url) = true := by
  simp only [safeFilename]
  split <;> split <;> first | assumption | decide

/-- `save_pdf` never returns an empty path. -/
lemma strTruthy_savePdf (e : Env) (u : String) : strTruthy (savePdf e u) = true := by
  unfold savePdf joinPath
  split
  · exact strTruthy_slash _ _
  · exact strTruthy_safeFilename u

/-- Shape of every successful `handle_generic` return. -/
lemma handleGeneric_shape (e : Env) (url : String) (r : DownloadResult) (l : Log)
    (h : handleGeneric e url = (Except.ok r, l)) :
    r.source_url = url
    ∧ (r.success = true → (∃ p, r.local_path = some p ∧ strTruthy p = true)
        ∧ r.fallback_url = none ∧ r.reason = none)
    ∧ (r.success = false → r.local_path = none ∧ r.reason.isSome = true) := by
  unfold handleGeneric at h
  repeat' split at h
  all_goals
    injection h with ha hb
  all_goals
    injection ha with ha
  all_goals
    subst ha
  all_goals
    simp [strTruthy_savePdf]

/-- Shape of every successful `handle_arxiv` return. -/
lemma handleArxiv_shape (e : Env) (url : String) (r : DownloadResult) (l : Log)
    (h : handleArxiv e url = (Except.ok r, l)) :
    r.source_url = url
    ∧ (r.success = true → (∃ p, r.local_path = some p ∧ strTruthy p = true)
        ∧ r.fallback_url = none ∧ r.reason = none)
    ∧ (r.success = false → r.local_path = none ∧ r.reason.isSome = true) := by
  unfold handleArxiv at h
  repeat' split at h
  all_goals
    injection h with ha hb
    first
    | exact Except.noConfusion ha
    | (injection ha with ha; subst ha; simp [strTruthy_savePdf])

/-- Shape of every successful `handle_biorxiv` return: the
`source_url` is the query-stripped URL. -/
lemma handleBiorxiv_shape (e : Env) (url : String) (r : DownloadResult) (l : Log)
    (h : handleBiorxiv e url = (Except.ok r, l)) :
    r.source_url = beforeMark '?' url
    ∧ (r.success = true → (∃ p, r.local_path = some p ∧ strTruthy p = true)
        ∧ r.fallback_url = none ∧ r.reason = none)
    ∧ (r.success = false → r.local_path = none ∧ r.reason.isSome = true) := by
  unfold handleBiorxiv at h
  repeat' split at h
  all_goals
    injection h with ha hb
    first
    | exact Except.noConfusion ha
    | (injection ha with ha; subst ha; simp [strTruthy_savePdf])

/-- Shape of every successful `handle_nature` return. -/
lemma handleNature_shape (e : Env) (url : String) (r : DownloadResult) (l : Log)
    (h : handleNature e url = (Except.ok r, l)) :
    r.source_url = url
    ∧ (r.success = true → (∃ p, r.local_path = some p ∧ strTruthy p = true)
        ∧ r.fallback_url = none ∧ r.reason = none)
    ∧ (r.success = false → r.local_path = none ∧ r.reason.isSome = true) := by
  unfold handleNature at h
  repeat' split at h
  all_goals
    injection h with ha hb
    first
    | exact Except.noConfusion ha
    | (injection ha with ha; subst ha; simp [strTruthy_savePdf])

/-- Shape of every successful `handle_science` return. -/
lemma handleScience_shape (e : Env) (url : String) (r : DownloadResult) (l : Log)
    (h : handleScience e url = (Except.ok r, l)) :
    r.source_url = url
    ∧ (r.success = true → (∃ p, r.local_path = some p ∧ strTruthy p = true)
        ∧ r.fallback_url = none ∧ r.reason = none)
    ∧ (r.success = false → r.local_path = none ∧ r.reason.isSome = true) := by
  unfold handleScience at h
  repeat' split at h
  all_goals
    injection h with ha hb
    first
    | exact Except.noConfusion ha
    | (injection ha with ha; subst ha; simp [strTruthy_savePdf])

/-- Shape of every successful `handle_cell` return. -/
lemma handleCell_shape (e : Env) (url : String) (r : DownloadResult) (l : Log)
    (h : handleCell e url = (Except.ok r, l)) :
    r.source_url = url
    ∧ (r.success = true → (∃ p, r.local_path = some p ∧ strTruthy p = true)
        ∧ r.fallback_url = none ∧ r.reason = none)
    ∧ (r.success = false → r.local_path = none ∧ r.reason.isSome = true) := by
  unfold handleCell at h
  repeat' split at h
  all_goals
    injection h with ha hb
    first
    | exact Except.noConfusion ha
    | (injection ha with ha; subst ha; simp [strTruthy_savePdf])

/-- Shape of every successful `handle_frontiers` return. -/
lemma handleFrontiers_shape (e : Env) (url : String) (r : DownloadResult) (l : Log)
    (h : handleFrontiers e url = (Except.ok r, l)) :
    r.source_url = url
    ∧ (r.success = true → (∃ p, r.local_path = some p ∧ strTruthy p = true)
        ∧ r.fallback_url = none ∧ r.reason = none)
    ∧ (r.success = false → r.local_path = none ∧ r.reason.isSome = true) := by
  unfold handleFrontiers at h
  repeat' split at h
  all_goals
    injection h with ha hb
    first
    | exact Except.noConfusion ha
    | (injection ha with ha; subst ha; simp [strTruthy_savePdf])

/-- Shape of every successful return of the DOI part of
`handle_pubmed`. -/
lemma handlePubmedDoi_shape (e : Env) (url : String) (lacc : Log) (r : DownloadResult) (l : Log)
    (h : handlePubmedDoi e url lacc = (Except.ok r, l)) :
    r.source_url = url
    ∧ (r.success = true → (∃ p, r.local_path = some p ∧ strTruthy p = true)
        ∧ r.fallback_url = none ∧ r.reason = none)
    ∧ (r.success = false → r.local_path = none ∧ r.reason.isSome = true) := by
  unfold handlePubmedDoi at h
  repeat' split at h
  all_goals
    injection h with ha hb
    first
    | exact Except.noConfusion ha
    | (injection ha with ha; subst ha; simp [strTruthy_savePdf])

/-- Shape of every successful `handle_pubmed` return. -/
lemma handlePubmed_shape (e : Env) (url : String) (r : DownloadResult) (l : Log)
    (h : handlePubmed e url = (Except.ok r, l)) :
    r.source_url = url
    ∧ (r.success = true → (∃ p, r.local_path = some p ∧ strTruthy p = true)
        ∧ r.fallback_url = none ∧ r.reason = none)
    ∧ (r.success = false → r.local_path = none ∧ r.reason.isSome = true) := by
  unfold handlePubmed at h
  repeat' split at h
  all_goals
    first
    | exact handlePubmedDoi_shape _ _ _ _ _ h
    | (injection h with ha hb
       first
       | exact Except.noConfusion ha
       | (injection ha with ha; subst ha; simp [strTruthy_savePdf]))

/-- A transport on which every GET raises; no documents, Unpaywall
raises too. -/
def envNoNet : Env :=
  { transport := fun _ => none, anchorsOf := fun _ => [], articleIdsOf := fun _ => [],
    unpaywall := fun _ => UpReply.raised, out_dir := "downloaded_papers" }

/-- A transport serving one Nature landing page (status 200, HTML with
no anchors) and failing elsewhere. -/
def envNatPage : Env :=
  { transport := fun u =>
      if u = "https://www.nature.com/articles/x" then
        some { status := 200, contentType := "text/html",
               finalUrl := "https://www.nature.com/articles/x", body := "page" }
      else none,
    anchorsOf := fun _ => [], articleIdsOf := fun _ => [],
    unpaywall := fun _ => UpReply.raised, out_dir := "downloaded_papers" }

/-- A 404 response that nevertheless declares `application/pdf`. -/
def respPdf404 : Response :=
  { status := 404, contentType := "application/pdf",
    finalUrl := "https://host.org/file", body := "" }

/-- A transport serving `respPdf404` for one URL. -/
def envPdf404 : Env :=
  { transport := fun u => if u = "https://host.org/file" then some respPdf404 else none,
    anchorsOf := fun _ => [], articleIdsOf := fun _ => [],
    unpaywall := fun _ => UpReply.raised, out_dir := "downloaded_papers" }

/-- A transport serving a genuine PDF for one URL. -/
def envPdfOk : Env :=
  { transport := fun u =>
      if u = "https://host.org/x.pdf" then
        some { status := 200, contentType := "application/pdf",
               finalUrl := "https://host.org/x.pdf", body := "PDF" }
      else none,
    anchorsOf := fun _ => [], articleIdsOf := fun _ => [],
    unpaywall := fun _ => UpReply.raised, out_dir := "downloaded_papers" }

/-- C1 counterexample: a Nature failure with a reachable landing page
but no PDF link populates BOTH `fallback_url` and `reason` in one
result, so "exactly one of local_path/fallback_url/reason is
populated" is false on the code. -/
theorem c1_exactly_one_cex :
    handleNature envNatPage "https://www.nature.com/articles/x" =
      (Except.ok { success := false, source_url := "https://www.nature.com/articles/x",
                   fallback_url := some "https://www.nature.com/articles/x",
                   reason := some "Nature PDF not found" },
       ["https://www.nature.com/articles/x"]) := by rfl

/-- C1 (amended): for every `ResolutionResult` a strategy handler
returns, `success=true` implies `local_path` is populated with a
non-empty path and `fallback_url`/`reason` are absent, and
`success=false` implies `local_path` is absent and `reason` is
populated; `fallback_url` may accompany `reason` on failure, so at
least one — not exactly one — of the three fields is populated. -/
theorem c1_result_population (e : Env) (h : Handler) (u : String) (r : DownloadResult) (l : Log)
    (hr : runHandler e h u = (Except.ok r, l)) :
    (r.success = true → (∃ p, r.local_path = some p ∧ strTruthy p = true)
        ∧ r.fallback_url = none ∧ r.reason = none)
  ∧ (r.success = false → r.local_path = none ∧ r.reason.isSome = true) := by
  cases h
  · exact (handlePubmed_shape e u r l hr).2
  · exact (handleArxiv_shape e u r l hr).2
  · exact (handleBiorxiv_shape e u r l hr).2
  · exact (handleNature_shape e u r l hr).2
  · exact (handleScience_shape e u r l hr).2
  · exact (handleCell_shape e u r l hr).2
  · exact (handleFrontiers_shape e u r l hr).2
  · exact (handleGeneric_shape e u r l hr).2

/-- The concrete successful result used to witness `c1_result_population`. -/
def c1res : DownloadResult :=
  { success := true, source_url := "https://host.org/x.pdf",
    local_path := some "downloaded_papers/x.pdf" }

/-- Witness for C1: the invariant instantiated at a concrete
successful generic download. -/
theorem c1_result_population_witness :
    (c1res.success = true → (∃ p, c1res.local_path = some p ∧ strTruthy p = true)
        ∧ c1res.fallback_url = none ∧ c1res.reason = none)
  ∧ (c1res.success = false → c1res.local_path = none ∧ c1res.reason.isSome = true) :=
  c1_result_population envPdfOk Handler.generic "https://host.org/x.pdf" c1res
    ["https://host.org/x.pdf"] (by rfl)

/-- C2 counterexample: with a transport that raises on the landing
GET, `handle_nature` does not return a `ResolutionResult` — the
exception escapes the strategy (its GET has no try/except). -/
theorem c2_strategy_raises_cex :
    handleNature envNoNet "https://www.nature.com/articles/b" =
      (Except.error (), ["https://www.nature.com/articles/b"]) := by rfl

/-- C2 (amended): the arXiv, bioRxiv and Generic strategies return a
result under every transport behaviour (all their fetches go through
the exception-catching `try_direct_pdf`); but a transport failure on
the uncaught GETs — the landing-page GET of Nature/Science/Cell, the
efetch GET of the PubMed strategy, and the landing-page GET of
Frontiers after its `/pdf` probe fails — escapes the strategy as an
exception. -/
theorem c2_exception_boundary (e : Env) (url : String) :
    (handleArxiv e url).1 ≠ Except.error ()
  ∧ (handleBiorxiv e url).1 ≠ Except.error ()
  ∧ (handleGeneric e url).1 ≠ Except.error ()
  ∧ (e.transport url = none → handleNature e url = (Except.error (), [url]))
  ∧ (e.transport url = none → handleScience e url = (Except.error (), [url]))
  ∧ (e.transport url = none → handleCell e url = (Except.error (), [url]))
  ∧ (e.transport (pubmedApiUrl url) = none →
      handlePubmed e url = (Except.error (), [pubmedApiUrl url]))
  ∧ ((tryDirectPdf e (rstripSlash url ++ "/pdf")).1 = none →
      e.transport url = none →
      handleFrontiers e url = (Except.error (), [rstripSlash url ++ "/pdf", url])) := by
  refine ⟨?_, ?_, ?_, ?_, ?_, ?_, ?_, ?_⟩
  · unfold handleArxiv
    split
    · simp
    · split <;> simp
  · unfold handleBiorxiv
    split <;> simp
  · unfold handleGeneric
    split <;> simp
  · intro htr
    unfold handleNature
    rw [htr]
  · intro htr
    unfold handleScience
    rw [htr]
  · intro htr
    unfold handleCell
    rw [htr]
  · intro htr
    unfold handlePubmed getPmcidFromPubmed getPubmedXml
    rw [htr]
  · intro h1 htr
    have hpair : tryDirectPdf e (rstripSlash url ++ "/pdf") = (none, [rstripSlash url ++ "/pdf"]) := by
      have h2 : (tryDirectPdf e (rstripSlash url ++ "/pdf")).2 = [rstripSlash url ++ "/pdf"] := rfl
      calc tryDirectPdf e (rstripSlash url ++ "/pdf")
          = ((tryDirectPdf e (rstripSlash url ++ "/pdf")).1,
             (tryDirectPdf e (rstripSlash url ++ "/pdf")).2) := rfl
        _ = (none, [rstripSlash url ++ "/pdf"]) := by rw [h1, h2]
    unfold handleFrontiers trySuffixPdf
    rw [hpair, htr]
    rfl

/-- Witness for C2: at the all-raising transport the safe strategies
still return, and the Nature, PubMed and Frontiers strategies let the
exception escape at their uncaught GETs. -/
theorem c2_exception_boundary_witness :
    (handleArxiv envNoNet "https://arxiv.org/abs/1.2").1 ≠ Except.error ()
  ∧ handleNature envNoNet "https://www.nature.com/articles/a" =
      (Except.error (), ["https://www.nature.com/articles/a"])
  ∧ handlePubmed envNoNet "https://pubmed.ncbi.nlm.nih.gov/12345/" =
      (Except.error (), [pubmedApiUrl "https://pubmed.ncbi.nlm.nih.gov/12345/"])
  ∧ handleFrontiers envNoNet "https://www.frontiersin.org/articles/1" =
      (Except.error (), [rstripSlash "https://www.frontiersin.org/articles/1" ++ "/pdf",
                         "https://www.frontiersin.org/articles/1"]) :=
  ⟨(c2_exception_boundary envNoNet "https://arxiv.org/abs/1.2").1,
   (c2_exception_boundary envNoNet "https://www.nature.com/articles/a").2.2.2.1 rfl,
   (c2_exception_boundary envNoNet "https://pubmed.ncbi.nlm.nih.gov/12345/").2.2.2.2.2.2.1 rfl,
   (c2_exception_boundary envNoNet "https://www.frontiersin.org/articles/1").2.2.2.2.2.2.2 rfl rfl⟩

/-- C5 counterexample: a 404 response whose Content-Type declares
`application/pdf` is accepted by the Generic strategy — the status
code is never checked, so "non-200 status implies success=false" is
false on the code. -/
theorem c5_status_ignored_cex :
    envPdf404.transport "https://host.org/file" = some respPdf404
  ∧ respPdf404.status = 404
  ∧ handleGeneric envPdf404 "https://host.org/file" =
      (Except.ok { success := true, source_url := "https://host.org/file",
                   local_path := some "downloaded_papers/file.pdf" },
       ["https://host.org/file"]) :=
  ⟨rfl, rfl, rfl⟩

/-- C5 (amended): the Generic strategy fails with `reason` set and
`local_path`/`fallback_url` absent exactly when the direct-PDF check
fails, and that check is true iff "application/pdf" occurs in the
lowercased Content-Type header — the status code plays no role (a
transport failure also yields the same failure result). -/
theorem c5_generic_failure (e : Env) (url : String) :
    ((tryDirectPdf e url).1 = none →
      handleGeneric e url =
        (Except.ok { success := false, source_url := url, reason := some "No direct PDF" }, [url]))
  ∧ (∀ r, e.transport url = some r →
      ((tryDirectPdf e url).1 = some r ↔
        strContains (lowerStr r.contentType) "application/pdf" = true))
  ∧ (e.transport url = none → (tryDirectPdf e url).1 = none) := by
  refine ⟨?_, ?_, ?_⟩
  · intro h1
    have hpair : tryDirectPdf e url = (none, [url]) := by
      have h2 : (tryDirectPdf e url).2 = [url] := rfl
      calc tryDirectPdf e url = ((tryDirectPdf e url).1, (tryDirectPdf e url).2) := rfl
        _ = (none, [url]) := by rw [h1, h2]
    unfold handleGeneric
    rw [hpair]
  · intro r htr
    unfold tryDirectPdf
    rw [htr]
    dsimp only
    constructor
    · intro h
      by_contra hct
      simp only [Bool.not_eq_true] at hct
      rw [hct] at h
      simp at h
    · intro hct
      rw [hct]
      simp
  · intro htr
    unfold tryDirectPdf
    rw [htr]

/-- Witness for C5: the amended statement applied at a raising
transport and at the 404 PDF response. -/
theorem c5_generic_failure_witness :
    handleGeneric envNoNet "https://host.org/y" =
      (Except.ok { success := false, source_url := "https://host.org/y",
                   reason := some "No direct PDF" }, ["https://host.org/y"])
  ∧ ((tryDirectPdf envPdf404 "https://host.org/file").1 = some respPdf404 ↔
      strContains (lowerStr respPdf404.contentType) "application/pdf" = true) :=
  ⟨(c5_generic_failure envNoNet "https://host.org/y").1 rfl,
   (c5_generic_failure envPdf404 "https://host.org/file").2.1 respPdf404 rfl⟩

/-- C6: `safe_filename` on the two spec examples, and on a URL whose
path component is empty, where the code yields ".pdf" — not the
documented default "paper.pdf": the `or "paper.pdf"` fallback is dead
because ".pdf" has already been appended. -/
theorem c6_safe_filename_eval :
    safeFilename "https://www.biorxiv.org/content/10.1101/2020.01.01.12345.full"
        = "2020.01.01.12345.full.pdf"
  ∧ safeFilename "https://example.com/files/paper.pdf" = "paper.pdf"
  ∧ safeFilename "https://example.com" = ".pdf"
  ∧ ".pdf" ≠ "paper.pdf" :=
  ⟨by decide, by decide, by decide, by decide⟩

/-- C9 counterexample: a bioRxiv reference carrying a query string
yields a result whose `source_url` is the query-stripped URL, not the
original input reference. -/
theorem c9_source_url_cex :
    download envNoNet ["https://www.biorxiv.org/content/10.1101/x?via=y"] =
      (Except.ok [{ success := false, source_url := "https://www.biorxiv.org/content/10.1101/x",
                    reason := some "bioRxiv PDF not found" }],
       ["https://www.biorxiv.org/content/10.1101/x.full.pdf",
        "https://www.biorxiv.org/content/10.1101/x/full.pdf"])
  ∧ "https://www.biorxiv.org/content/10.1101/x" ≠ "https://www.biorxiv.org/content/10.1101/x?via=y" :=
  ⟨by rfl, by decide⟩

/-- C9 (amended): the result's `source_url` is the URL the Router
passed to the strategy (the DOI-resolved URL, not necessarily the
original reference), further query-stripped by the bioRxiv strategy. -/
theorem c9_source_url_resolved (e : Env) (h : Handler) (u : String) (r : DownloadResult) (l : Log)
    (hr : runHandler e h u = (Except.ok r, l)) :
    r.source_url = (if h = Handler.biorxiv then beforeMark '?' u else u) := by
  cases h
  · simpa using (handlePubmed_shape e u r l hr).1
  · simpa using (handleArxiv_shape e u r l hr).1
  · simpa using (handleBiorxiv_shape e u r l hr).1
  · simpa using (handleNature_shape e u r l hr).1
  · simpa using (handleScience_shape e u r l hr).1
  · simpa using (handleCell_shape e u r l hr).1
  · simpa using (handleFrontiers_shape e u r l hr).1
  · simpa using (handleGeneric_shape e u r l hr).1

/-- The concrete result used to witness `c9_source_url_resolved`. -/
def c9res : DownloadResult :=
  { success := false, source_url := "https://www.biorxiv.org/content/10.1101/x",
    reason := some "bioRxiv PDF not found" }

/-- Witness for C9: the amended statement at the concrete bioRxiv
reference with a query string. -/
theorem c9_source_url_resolved_witness :
    c9res.source_url =
      (if Handler.biorxiv = Handler.biorxiv then
         beforeMark '?' "https://www.biorxiv.org/content/10.1101/x?via=y"
       else "https://www.biorxiv.org/content/10.1101/x?via=y") :=
  c9_source_url_resolved envNoNet Handler.biorxiv "https://www.biorxiv.org/content/10.1101/x?via=y"
    c9res ["https://www.biorxiv.org/content/10.1101/x.full.pdf",
           "https://www.biorxiv.org/content/10.1101/x/full.pdf"] (by rfl)

/-- C3 counterexample: in a 3-element batch whose 2nd reference routes
to the Nature strategy and suffers a transport failure at every step,
the escaping exception aborts `download`: no report of length 3 is
returned (no report at all). -/
theorem c3_batch_abort_cex :
    (download envNoNet ["https://arxiv.org/abs/1.2",
                        "https://www.nature.com/articles/a",
                        "https://arxiv.org/abs/3.4"]).1 = Except.error () := by rfl

/-- C3 (amended): whenever no reference's strategy lets an exception
escape, `download` returns exactly one result per input reference, in
input order, each computed independently of the other references (it
is the result of resolving that reference alone), and the GET requests
are issued in input order; when a handler raises, the whole batch
aborts instead. -/
theorem c3_download_order (e : Env) (urls : List String)
    (hall : urls.all (stepOk e) = true) :
    download e urls =
      (Except.ok (urls.map (resolveOneOk e)),
       (urls.map (fun u => (resolveOne e u).2)).flatten) := by
  induction urls with
  | nil => rfl
  | cons u rest ih =>
    rw [List.all_cons, Bool.and_eq_true] at hall
    obtain ⟨h1, h2⟩ := hall
    unfold download
    rcases hp : resolveOne e u with ⟨fst, lg⟩
    cases fst with
    | error v =>
      unfold stepOk at h1
      rw [hp] at h1
      simp at h1
    | ok r =>
      dsimp only
      rw [ih h2]
      simp [resolveOneOk, hp]

/-- Witness for C3: a concrete 3-element batch with no escaping
exception, evaluated at the all-raising transport (each arXiv attempt
fails but returns a result). -/
theorem c3_download_order_witness :
    download envNoNet ["https://arxiv.org/abs/1.2", "https://arxiv.org/abs/3.4",
                       "https://arxiv.org/abs/5.6"] =
      (Except.ok (["https://arxiv.org/abs/1.2", "https://arxiv.org/abs/3.4",
                   "https://arxiv.org/abs/5.6"].map (resolveOneOk envNoNet)),
       (["https://arxiv.org/abs/1.2", "https://arxiv.org/abs/3.4",
         "https://arxiv.org/abs/5.6"].map (fun u => (resolveOne envNoNet u).2)).flatten) :=
  c3_download_order envNoNet
    ["https://arxiv.org/abs/1.2", "https://arxiv.org/abs/3.4", "https://arxiv.org/abs/5.6"]
    (by rfl)

/-- C4 (confirmed): for a DOI-shaped reference the Router resolves it
with a redirect-following GET and classifies the final URL's
lowercased host through the fixed-precedence substring chain
(`routeByHost`, stated from the spec's words); if that GET raises or
returns non-200 the original reference is classified instead; and a
host containing "nature.com" (and none of the higher-precedence
patterns) is always routed to Nature, independently of the original
reference string. -/
theorem c4_router_doi (e : Env) (url : String) :
    (isDoiUrl url = true → ∀ r, e.transport url = some r → r.status = 200 →
      getHandler e url =
        ((routeByHost (lowerStr (urlparse r.finalUrl).netloc), r.finalUrl), [url]))
  ∧ (isDoiUrl url = true → e.transport url = none →
      getHandler e url = ((routeByHost (lowerStr (urlparse url).netloc), url), [url]))
  ∧ (isDoiUrl url = true → ∀ r, e.transport url = some r → r.status ≠ 200 →
      getHandler e url = ((routeByHost (lowerStr (urlparse url).netloc), url), [url]))
  ∧ (∀ d, strContains d "nature.com" = true →
      strContains d "pubmed.ncbi.nlm.nih.gov" = false →
      strContains d "arxiv.org" = false →
      strContains d "biorxiv.org" = false →
      strContains d "medrxiv.org" = false →
      routeByHost d = Handler.nature) := by
  refine ⟨?_, ?_, ?_, ?_⟩
  · intro hdoi r htr hst
    unfold getHandler routeByHost
    simp only [hdoi, htr, hst, if_true, reduceIte]
    split_ifs <;> rfl
  · intro hdoi htr
    unfold getHandler routeByHost
    simp only [hdoi, htr, if_true, reduceIte]
    split_ifs <;> rfl
  · intro hdoi r htr hst
    unfold getHandler routeByHost
    simp only [hdoi, htr, if_true, reduceIte, if_neg hst]
    split_ifs <;> rfl
  · intro d hn hp ha hb hm
    unfold routeByHost
    simp [hp, ha, hb, hm, hn]

/-- The redirect target used by the C4 witness. -/
def respDoiNat : Response :=
  { status := 200, contentType := "text/html",
    finalUrl := "https://www.nature.com/articles/xyz", body := "page" }

/-- A transport resolving one DOI to a Nature landing page. -/
def envDoiNat : Env :=
  { transport := fun u => if u = "https://doi.org/10.1038/xyz" then some respDoiNat else none,
    anchorsOf := fun _ => [], articleIdsOf := fun _ => [],
    unpaywall := fun _ => UpReply.raised, out_dir := "downloaded_papers" }

/-- Witness for C4: a DOI redirecting to nature.com is routed to the
Nature strategy. -/
theorem c4_router_doi_witness :
    getHandler envDoiNat "https://doi.org/10.1038/xyz" =
      ((routeByHost (lowerStr (urlparse "https://www.nature.com/articles/xyz").netloc),
        "https://www.nature.com/articles/xyz"), ["https://doi.org/10.1038/xyz"])
  ∧ routeByHost "www.nature.com" = Handler.nature :=
  ⟨(c4_router_doi envDoiNat "https://doi.org/10.1038/xyz").1 (by decide) respDoiNat rfl rfl,
   (c4_router_doi envDoiNat "https://doi.org/10.1038/xyz").2.2.2 "www.nature.com"
     (by decide) (by decide) (by decide) (by decide) (by decide)⟩

/-- One resolution step never consults the Unpaywall oracle: replacing
the Unpaywall behaviour leaves `resolveOne` definitionally unchanged. -/
lemma resolveOne_unpaywall (e : Env) (u1 u2 : String → UpReply) (url : String) :
    resolveOne { e with unpaywall := u1 } url = resolveOne { e with unpaywall := u2 } url := rfl

/-- C10 (confirmed): the Unpaywall resolver `unpaywall_lookup` is
defined but unreachable from the resolution pipeline — no strategy,
nor the Router, nor the batch orchestrator consults the Unpaywall API,
so the batch outcome of `download` is identical under any two
behaviours of that API. -/
theorem c10_unpaywall_noninterference (e : Env) (u1 u2 : String → UpReply)
    (urls : List String) :
    download { e with unpaywall := u1 } urls = download { e with unpaywall := u2 } urls := by
  induction urls with
  | nil => rfl
  | cons u rest ih =>
    unfold download
    rw [resolveOne_unpaywall e u1 u2 u, ih]

/-- C8 (confirmed): the bioRxiv strategy strips the query string,
then probes `.full.pdf` and `/full.pdf` in that order, stopping at
the first variant whose response declares a PDF content type: when
the first variant is a PDF only it is fetched; when it is not, both
variants are fetched in order and a PDF at the second yields
success=true through the second variant's URL. -/
theorem c8_biorxiv_suffixes (e : Env) (url : String) :
    ((tryDirectPdf e (rstripSlash (beforeMark '?' url) ++ ".full.pdf")).1.isSome = true →
      handleBiorxiv e url =
        (Except.ok { success := true, source_url := beforeMark '?' url,
                     local_path := some (savePdf e (rstripSlash (beforeMark '?' url) ++ ".full.pdf")) },
         [rstripSlash (beforeMark '?' url) ++ ".full.pdf"]))
  ∧ ((tryDirectPdf e (rstripSlash (beforeMark '?' url) ++ ".full.pdf")).1 = none →
      (handleBiorxiv e url).2 =
        [rstripSlash (beforeMark '?' url) ++ ".full.pdf",
         rstripSlash (beforeMark '?' url) ++ "/full.pdf"]
      ∧ ((tryDirectPdf e (rstripSlash (beforeMark '?' url) ++ "/full.pdf")).1.isSome = true →
          handleBiorxiv e url =
            (Except.ok { success := true, source_url := beforeMark '?' url,
                         local_path := some (savePdf e (rstripSlash (beforeMark '?' url) ++ "/full.pdf")) },
             [rstripSlash (beforeMark '?' url) ++ ".full.pdf",
              rstripSlash (beforeMark '?' url) ++ "/full.pdf"]))) := by
  constructor
  · intro h1
    obtain ⟨r1, hr1⟩ := Option.isSome_iff_exists.mp h1
    have hpair : tryDirectPdf e (rstripSlash (beforeMark '?' url) ++ ".full.pdf") =
        (some r1, [rstripSlash (beforeMark '?' url) ++ ".full.pdf"]) := by
      have h2 : (tryDirectPdf e (rstripSlash (beforeMark '?' url) ++ ".full.pdf")).2 =
          [rstripSlash (beforeMark '?' url) ++ ".full.pdf"] := rfl
      calc tryDirectPdf e (rstripSlash (beforeMark '?' url) ++ ".full.pdf")
          = ((tryDirectPdf e (rstripSlash (beforeMark '?' url) ++ ".full.pdf")).1,
             (tryDirectPdf e (rstripSlash (beforeMark '?' url) ++ ".full.pdf")).2) := rfl
        _ = (some r1, [rstripSlash (beforeMark '?' url) ++ ".full.pdf"]) := by rw [hr1, h2]
    unfold handleBiorxiv trySuffixPdf
    rw [hpair]
  · intro h1
    have hpair1 : tryDirectPdf e (rstripSlash (beforeMark '?' url) ++ ".full.pdf") =
        (none, [rstripSlash (beforeMark '?' url) ++ ".full.pdf"]) := by
      have h2 : (tryDirectPdf e (rstripSlash (beforeMark '?' url) ++ ".full.pdf")).2 =
          [rstripSlash (beforeMark '?' url) ++ ".full.pdf"] := rfl
      calc tryDirectPdf e (rstripSlash (beforeMark '?' url) ++ ".full.pdf")
          = ((tryDirectPdf e (rstripSlash (beforeMark '?' url) ++ ".full.pdf")).1,
             (tryDirectPdf e (rstripSlash (beforeMark '?' url) ++ ".full.pdf")).2) := rfl
        _ = (none, [rstripSlash (beforeMark '?' url) ++ ".full.pdf"]) := by rw [h1, h2]
    have h2pair : tryDirectPdf e (rstripSlash (beforeMark '?' url) ++ "/full.pdf") =
        ((tryDirectPdf e (rstripSlash (beforeMark '?' url) ++ "/full.pdf")).1,
         [rstripSlash (beforeMark '?' url) ++ "/full.pdf"]) := rfl
    constructor
    · unfold handleBiorxiv trySuffixPdf
      rw [hpair1]
      unfold trySuffixPdf
      rw [h2pair]
      rcases (tryDirectPdf e (rstripSlash (beforeMark '?' url) ++ "/full.pdf")).1 with _ | r2 <;> rfl
    · intro hs2
      obtain ⟨r2, hr2⟩ := Option.isSome_iff_exists.mp hs2
      unfold handleBiorxiv trySuffixPdf
      rw [hpair1]
      unfold trySuffixPdf
      rw [h2pair, hr2]
      rfl

/-- An HTML (non-PDF) response for the first bioRxiv suffix variant. -/
def respBioHtml : Response :=
  { status := 200, contentType := "text/html",
    finalUrl := "https://www.biorxiv.org/content/10.1101/z.full.pdf", body := "page" }

/-- A PDF response for the second bioRxiv suffix variant. -/
def respBioPdf : Response :=
  { status := 200, contentType := "application/pdf",
    finalUrl := "https://www.biorxiv.org/content/10.1101/z/full.pdf", body := "PDF" }

/-- A transport where only the `/full.pdf` variant is a PDF. -/
def envBio2 : Env :=
  { transport := fun u =>
      if u = "https://www.biorxiv.org/content/10.1101/z/full.pdf" then some respBioPdf
      else if u = "https://www.biorxiv.org/content/10.1101/z.full.pdf" then some respBioHtml
      else none,
    anchorsOf := fun _ => [], articleIdsOf := fun _ => [],
    unpaywall := fun _ => UpReply.raised, out_dir := "downloaded_papers" }

/-- Witness for C8: a bioRxiv URL with query string where only the
second suffix variant is a PDF — both variants fetched in order,
success through the second. -/
theorem c8_biorxiv_suffixes_witness :
    (handleBiorxiv envBio2 "https://www.biorxiv.org/content/10.1101/z?utm=1").2 =
      [rstripSlash (beforeMark '?' "https://www.biorxiv.org/content/10.1101/z?utm=1") ++ ".full.pdf",
       rstripSlash (beforeMark '?' "https://www.biorxiv.org/content/10.1101/z?utm=1") ++ "/full.pdf"]
  ∧ handleBiorxiv envBio2 "https://www.biorxiv.org/content/10.1101/z?utm=1" =
      (Except.ok { success := true,
                   source_url := beforeMark '?' "https://www.biorxiv.org/content/10.1101/z?utm=1",
                   local_path := some (savePdf envBio2
                     (rstripSlash (beforeMark '?' "https://www.biorxiv.org/content/10.1101/z?utm=1") ++ "/full.pdf")) },
       [rstripSlash (beforeMark '?' "https://www.biorxiv.org/content/10.1101/z?utm=1") ++ ".full.pdf",
        rstripSlash (beforeMark '?' "https://www.biorxiv.org/content/10.1101/z?utm=1") ++ "/full.pdf"]) :=
  ⟨((c8_biorxiv_suffixes envBio2 "https://www.biorxiv.org/content/10.1101/z?utm=1").2 (by rfl)).1,
   ((c8_biorxiv_suffixes envBio2 "https://www.biorxiv.org/content/10.1101/z?utm=1").2 (by rfl)).2 (by rfl)⟩

/-- A head mismatch refutes the prefix test. -/
lemma leadsWith_head_miss (ps cs : List Char) {a c : Char} (h : (a == c) = false) :
    leadsWith (a :: ps) (c :: cs) = false := by
  simp [leadsWith, h]

/-- A list is a prefix of itself followed by anything. -/
lemma leadsWith_self_append (p t : List Char) : leadsWith p (p ++ t) = true := by
  induction p with
  | nil => rfl
  | cons a ps ih => simp [leadsWith, List.cons_append, ih]

/-- The prefix test only inspects as much of the target as the
pattern is long. -/
lemma leadsWith_append_of_le (p q t : List Char) (h : p.length ≤ q.length) :
    leadsWith p (q ++ t) = leadsWith p q := by
  induction p generalizing q with
  | nil => simp [leadsWith]
  | cons a ps ih =>
    cases q with
    | nil => simp at h
    | cons b qs =>
      simp only [List.cons_append, leadsWith, List.append_eq]
      rw [ih qs (by simpa using h)]

/-- The scan skips a position where neither pattern matches. -/
lemma arxivSearch_cons_miss (c : Char) (cs : List Char)
    (h1 : leadsWith arxivAbsPat (c :: cs) = false)
    (h2 : leadsWith arxivPdfPat (c :: cs) = false) :
    arxivSearch (c :: cs) = arxivSearch cs := by
  unfold arxivSearch
  simp only [h1, h2, Bool.false_eq_true, if_false]
  cases cs <;> rfl

/-- The scan skips any prefix free of the character 'a' (both pattern
literals begin with 'a'). -/
lemma arxivSearch_no_a (pre t : List Char) (h : ∀ c ∈ pre, ('a' == c) = false) :
    arxivSearch (pre ++ t) = arxivSearch t := by
  induction pre with
  | nil => rfl
  | cons c cs ih =>
    have hc : ('a' == c) = false := h c (List.mem_cons_self c cs)
    have h1 : leadsWith arxivAbsPat (c :: (cs ++ t)) = false :=
      leadsWith_head_miss _ _ hc
    have h2 : leadsWith arxivPdfPat (c :: (cs ++ t)) = false :=
      leadsWith_head_miss _ _ hc
    calc arxivSearch ((c :: cs) ++ t) = arxivSearch (c :: (cs ++ t)) := by rw [List.cons_append]
      _ = arxivSearch (cs ++ t) := arxivSearch_cons_miss _ _ h1 h2
      _ = arxivSearch t := ih (fun x hx => h x (List.mem_cons_of_mem c hx))

/-- `takeWhile` of an all-true list is the list itself. -/
lemma takeWhile_all (p : Char → Bool) (l : List Char) (h : ∀ x ∈ l, p x = true) :
    l.takeWhile p = l := by
  induction l with
  | nil => rfl
  | cons a l ih =>
    simp only [List.takeWhile_cons, h a (List.mem_cons_self a l), if_true]
    rw [ih (fun x hx => h x (List.mem_cons_of_mem a hx))]

/-- `takeWhile` stops exactly at the first failing element. -/
lemma takeWhile_all_append (p : Char → Bool) (l1 : List Char) (c : Char) (l2 : List Char)
    (h1 : ∀ x ∈ l1, p x = true) (hc : p c = false) :
    (l1 ++ c :: l2).takeWhile p = l1 := by
  induction l1 with
  | nil => simp [List.takeWhile_cons, hc]
  | cons a l ih =>
    simp only [List.cons_append, List.takeWhile_cons, h1 a (List.mem_cons_self a l), if_true]
    rw [ih (fun x hx => h1 x (List.mem_cons_of_mem a hx))]

/-- The identifier pattern consumes a whole `digits.digits` tail. -/
lemma matchArxivIdAt_exact (d1 d2 : List Char) (h1 : d1 ≠ []) (h2 : d2 ≠ [])
    (hd1 : ∀ c ∈ d1, c.isDigit = true) (hd2 : ∀ c ∈ d2, c.isDigit = true) :
    matchArxivIdAt (d1 ++ '.' :: d2) = some (d1 ++ '.' :: d2) := by
  have he1 : d1.isEmpty = false := by
    cases d1 with
    | nil => exact absurd rfl h1
    | cons a l => rfl
  have he2 : d2.isEmpty = false := by
    cases d2 with
    | nil => exact absurd rfl h2
    | cons a l => rfl
  have ht1 : (d1 ++ '.' :: d2).takeWhile (fun c => c.isDigit) = d1 :=
    takeWhile_all_append _ d1 '.' d2 hd1 (by decide)
  have ht2 : d2.takeWhile (fun c => c.isDigit) = d2 := takeWhile_all _ d2 hd2
  unfold matchArxivIdAt
  simp only [ht1, he1, Bool.false_eq_true, if_false, List.drop_left]
  simp only [ht2, he2, Bool.false_eq_true, if_false]

/-- The scan succeeds the moment the abs pattern matches and a valid
identifier follows. -/
lemma arxivSearch_abs_hit (t idL : List Char) (h : matchArxivIdAt t = some idL) :
    arxivSearch (arxivAbsPat ++ t) = some idL := by
  have hlead : leadsWith arxivAbsPat ('a' :: ("rxiv.org/abs/".toList ++ t)) = true :=
    leadsWith_self_append arxivAbsPat t
  have hdrop : ('a' :: ("rxiv.org/abs/".toList ++ t)).drop 14 = t :=
    List.drop_left arxivAbsPat t
  show arxivSearch ('a' :: ("rxiv.org/abs/".toList ++ t)) = some idL
  unfold arxivSearch
  simp only [hlead, if_true, hdrop, h]

/-- The scan succeeds the moment the pdf pattern matches and a valid
identifier follows (the abs alternative fails there). -/
lemma arxivSearch_pdf_hit (t idL : List Char) (h : matchArxivIdAt t = some idL) :
    arxivSearch (arxivPdfPat ++ t) = some idL := by
  have hmiss : leadsWith arxivAbsPat ('a' :: ("rxiv.org/pdf/".toList ++ t)) = false := by
    have := leadsWith_append_of_le arxivAbsPat arxivPdfPat t (by decide)
    rw [show leadsWith arxivAbsPat arxivPdfPat = false from by decide] at this
    exact this
  have hlead : leadsWith arxivPdfPat ('a' :: ("rxiv.org/pdf/".toList ++ t)) = true :=
    leadsWith_self_append arxivPdfPat t
  have hdrop : ('a' :: ("rxiv.org/pdf/".toList ++ t)).drop 14 = t :=
    List.drop_left arxivPdfPat t
  show arxivSearch ('a' :: ("rxiv.org/pdf/".toList ++ t)) = some idL
  unfold arxivSearch
  simp only [hmiss, Bool.false_eq_true, if_false, hlead, if_true, hdrop, h]

/-- Searching a canonical abs URL extracts exactly the identifier. -/
lemma arxivSearch_https_abs (d1 d2 : List Char) (h1 : d1 ≠ []) (h2 : d2 ≠ [])
    (hd1 : ∀ c ∈ d1, c.isDigit = true) (hd2 : ∀ c ∈ d2, c.isDigit = true) :
    arxivSearch ("https://arxiv.org/abs/".toList ++ (d1 ++ '.' :: d2)) = some (d1 ++ '.' :: d2) := by
  have hsplit : "https://arxiv.org/abs/".toList = "https://".toList ++ arxivAbsPat := by decide
  rw [hsplit, List.append_assoc, arxivSearch_no_a "https://".toList _ (by decide)]
  exact arxivSearch_abs_hit _ _ (matchArxivIdAt_exact d1 d2 h1 h2 hd1 hd2)

/-- Searching a canonical pdf URL extracts exactly the identifier. -/
lemma arxivSearch_https_pdf (d1 d2 : List Char) (h1 : d1 ≠ []) (h2 : d2 ≠ [])
    (hd1 : ∀ c ∈ d1, c.isDigit = true) (hd2 : ∀ c ∈ d2, c.isDigit = true) :
    arxivSearch ("https://arxiv.org/pdf/".toList ++ (d1 ++ '.' :: d2)) = some (d1 ++ '.' :: d2) := by
  have hsplit : "https://arxiv.org/pdf/".toList = "https://".toList ++ arxivPdfPat := by decide
  rw [hsplit, List.append_assoc, arxivSearch_no_a "https://".toList _ (by decide)]
  exact arxivSearch_pdf_hit _ _ (matchArxivIdAt_exact d1 d2 h1 h2 hd1 hd2)

/-- C7 (confirmed): when the arXiv pattern matches, the strategy
attempts exactly one GET, at the canonical URL built from the
extracted identifier; when it does not match, the strategy fails
immediately with a reason, no fetch attempt and no fallback URL; and
the abs and pdf forms of the same numeric identifier both extract
that identifier, so they attempt the identical canonical URL. -/
theorem c7_arxiv_canonical (e : Env) :
    (∀ url idL, arxivSearch url.toList = some idL →
      (handleArxiv e url).2 = ["https://arxiv.org/pdf/" ++ String.mk idL ++ ".pdf"])
  ∧ (∀ url, arxivSearch url.toList = none →
      handleArxiv e url =
        (Except.ok { success := false, source_url := url, reason := some "Invalid arXiv URL" }, []))
  ∧ (∀ d1 d2 : List Char, d1 ≠ [] → d2 ≠ [] →
      (∀ c ∈ d1, c.isDigit = true) → (∀ c ∈ d2, c.isDigit = true) →
      ∀ u1 u2 : String,
        u1.toList = "https://arxiv.org/abs/".toList ++ (d1 ++ '.' :: d2) →
        u2.toList = "https://arxiv.org/pdf/".toList ++ (d1 ++ '.' :: d2) →
        arxivSearch u1.toList = some (d1 ++ '.' :: d2)
        ∧ arxivSearch u2.toList = some (d1 ++ '.' :: d2)
        ∧ (handleArxiv e u1).2 = ["https://arxiv.org/pdf/" ++ String.mk (d1 ++ '.' :: d2) ++ ".pdf"]
        ∧ (handleArxiv e u1).2 = (handleArxiv e u2).2) := by
  have hlog : ∀ url idL, arxivSearch url.toList = some idL →
      (handleArxiv e url).2 = ["https://arxiv.org/pdf/" ++ String.mk idL ++ ".pdf"] := by
    intro url idL h
    unfold handleArxiv
    rw [h]
    dsimp only
    rcases ht : tryDirectPdf e ("https://arxiv.org/pdf/" ++ String.mk idL ++ ".pdf") with ⟨fst, lg⟩
    have hl : lg = ["https://arxiv.org/pdf/" ++ String.mk idL ++ ".pdf"] := by
      have h2 : (tryDirectPdf e ("https://arxiv.org/pdf/" ++ String.mk idL ++ ".pdf")).2 =
          ["https://arxiv.org/pdf/" ++ String.mk idL ++ ".pdf"] := rfl
      rw [ht] at h2
      exact h2
    subst hl
    cases fst <;> rfl
  refine ⟨hlog, ?_, ?_⟩
  · intro url h
    unfold handleArxiv
    rw [h]
  · intro d1 d2 h1 h2 hd1 hd2 u1 u2 hu1 hu2
    have hs1 : arxivSearch u1.toList = some (d1 ++ '.' :: d2) := by
      rw [hu1]
      exact arxivSearch_https_abs d1 d2 h1 h2 hd1 hd2
    have hs2 : arxivSearch u2.toList = some (d1 ++ '.' :: d2) := by
      rw [hu2]
      exact arxivSearch_https_pdf d1 d2 h1 h2 hd1 hd2
    exact ⟨hs1, hs2, hlog u1 _ hs1, by rw [hlog u1 _ hs1, hlog u2 _ hs2]⟩

/-- Witness for C7: the abs and pdf forms of identifier 2301.00001
both extract it and attempt the identical canonical URL; a
non-matching URL fails with no fetch. -/
theorem c7_arxiv_canonical_witness :
    (arxivSearch "https://arxiv.org/abs/2301.00001".toList =
        some (['2', '3', '0', '1'] ++ '.' :: ['0', '0', '0', '0', '1'])
      ∧ arxivSearch "https://arxiv.org/pdf/2301.00001".toList =
        some (['2', '3', '0', '1'] ++ '.' :: ['0', '0', '0', '0', '1'])
      ∧ (handleArxiv envNoNet "https://arxiv.org/abs/2301.00001").2 =
        ["https://arxiv.org/pdf/" ++ String.mk (['2', '3', '0', '1'] ++ '.' :: ['0', '0', '0', '0', '1']) ++ ".pdf"]
      ∧ (handleArxiv envNoNet "https://arxiv.org/abs/2301.00001").2 =
        (handleArxiv envNoNet "https://arxiv.org/pdf/2301.00001").2)
  ∧ handleArxiv envNoNet "https://example.com/a" =
      (Except.ok { success := false, source_url := "https://example.com/a",
                   reason := some "Invalid arXiv URL" }, []) :=
  ⟨(c7_arxiv_canonical envNoNet).2.2 ['2', '3', '0', '1'] ['0', '0', '0', '0', '1']
      (by decide) (by decide) (by decide) (by decide)
      "https://arxiv.org/abs/2301.00001" "https://arxiv.org/pdf/2301.00001"
      (by decide) (by decide),
   (c7_arxiv_canonical envNoNet).2.1 "https://example.com/a" (by decide)⟩
